import Mathlib

/-!
Shallow embedding of the OAuth2 token lifecycle manager of
`src/src/auth.ts` (dbx-mcp-server).

The TypeScript module keeps a process-global `tokenData` variable, talks to
the Dropbox token endpoint over HTTP, and persists encrypted token state to
a file.  We embed it with explicit state passing:

* the global `tokenData : TokenData | null` becomes an `Option TokenData`
  argument and a field of the result;
* `Date.now()` becomes explicit `Nat` arguments (milliseconds since epoch);
  `refreshAccessToken` reads the clock twice (once before the cooldown
  check, once when computing the new expiry), so it takes two arguments;
* the outcome of the single HTTP POST to the provider becomes a
  `ProviderResult` argument, and the result records whether the HTTP
  request was actually issued;
* `saveTokenData` becomes a `savedToStore` field recording what, if
  anything, was written to the encrypted store during the call;
* thrown `McpError` / `TokenRefreshError` values become an `Except` result.

`security-utils.ts` (encryption helpers and `TOKEN_REFRESH_CONFIG`) is not
part of the sources; its configuration object is modelled as an explicit
`TokenRefreshConfig` parameter and the encryption helpers are modelled from
the spec where needed (see the persistence section below).
-/

/-- Token state record, mirroring `interface TokenData` of `auth.ts`
(lines 20–28).  Optional fields become `Option`. -/
structure TokenData where
  accessToken : String
  refreshToken : String
  expiresAt : Nat
  scope : List String
  lastRefreshAttempt : Option Nat
  refreshAttempts : Option Nat
  codeVerifier : Option String
deriving DecidableEq, Repr

/-- Configuration object `TOKEN_REFRESH_CONFIG` imported from
`security-utils.ts`.  The source of that module is not in the repository;
`auth.ts` reads exactly these three fields, so we model it as a record and
quantify over its values. -/
structure TokenRefreshConfig where
  retryDelay : Nat
  maxRetries : Nat
  thresholdMinutes : Nat
deriving DecidableEq, Repr

/-- Error value thrown as `TokenRefreshError` (class imported from
`security-utils.ts`); `auth.ts` constructs it with a message, a string
code, and a retryable flag, and `getValidAccessToken` reads `.retryable`
and `.message`. -/
structure TokenRefreshError where
  message : String
  code : String
  retryable : Bool
deriving DecidableEq, Repr

/-- Either of the two error families thrown by the manager: `McpError`
(configuration / precondition errors, and the wrappers thrown by
`getValidAccessToken`) carrying its message, or a `TokenRefreshError`. -/
inductive AppError where
  | mcp (message : String)
  | refresh (e : TokenRefreshError)
deriving DecidableEq, Repr

/-- The `ERROR_MESSAGES` map of `auth.ts` (lines 54–61). -/
structure ErrorMessages where
  TOKEN_EXPIRED : String
  REFRESH_FAILED : String
  INVALID_GRANT : String
  NETWORK_ERROR : String
  RATE_LIMIT : String
  SERVER_ERROR : String
deriving DecidableEq, Repr

/-- Literal contents of `ERROR_MESSAGES` in `auth.ts`. -/
def ERROR_MESSAGES : ErrorMessages :=
  { TOKEN_EXPIRED := "Access token has expired. Attempting to refresh..."
    REFRESH_FAILED := "Failed to refresh access token after multiple attempts."
    INVALID_GRANT := "The refresh token is invalid or has been revoked. Please re-authenticate."
    NETWORK_ERROR := "Network error occurred while refreshing token. Will retry..."
    RATE_LIMIT := "Rate limit exceeded. Please try again later."
    SERVER_ERROR := "Dropbox server error occurred. Will retry..." }

/-- Message of the `McpError` thrown by `refreshAccessToken` when no
refresh token is available (lines 165–170). -/
def NO_REFRESH_TOKEN_MESSAGE : String :=
  "No refresh token available. Please authenticate first by visiting the authorization URL."

/-- Message of the `TokenRefreshError` thrown by the cooldown check
(lines 176–180). -/
def COOLDOWN_MESSAGE : String :=
  "Too many refresh attempts. Please wait before trying again."

/-- Message of the `McpError` thrown by `getValidAccessToken` when the
global token state is null (lines 270–275). -/
def NO_TOKEN_DATA_MESSAGE : String :=
  "No token data available. Please authenticate first by visiting the authorization URL."

/-- Shape of the caught error inspected by the `catch` block of
`refreshAccessToken` (lines 225–266): whether `axios.isAxiosError` holds,
the optional HTTP response as a pair of status code and the optional
`error` field of the response body, and the `message` of the error. -/
structure AxiosFailure where
  isAxios : Bool
  response : Option (Nat × Option String)
  message : String
deriving DecidableEq, Repr

/-- Outcome of the HTTP POST to the provider token endpoint: either a
success body (`access_token`, `expires_in` in seconds) or a thrown
failure. -/
inductive ProviderResult where
  | success (accessToken : String) (expiresIn : Nat)
  | failure (e : AxiosFailure)
deriving DecidableEq, Repr

/-- Error classification of the `catch` block of `refreshAccessToken`
(lines 225–266), as a pure function from the caught error to the
`TokenRefreshError` thrown.  `statusCode` defaults to 0 when there is no
response (`axiosError.response?.status ?? 0`), and any error that matches
no specific branch (including non-axios errors) falls through to the
generic `UNKNOWN_ERROR` case. -/
def classifyRefreshFailure (e : AxiosFailure) : TokenRefreshError :=
  if e.isAxios then
    let statusCode : Nat := (e.response.map Prod.fst).getD 0
    let errField : Option String := e.response.bind Prod.snd
    if statusCode = 401 ∧ errField = some "invalid_grant" then
      ⟨ERROR_MESSAGES.INVALID_GRANT, "INVALID_GRANT", false⟩
    else if statusCode = 429 then
      ⟨ERROR_MESSAGES.RATE_LIMIT, "RATE_LIMIT", true⟩
    else if 500 ≤ statusCode then
      ⟨ERROR_MESSAGES.SERVER_ERROR, "SERVER_ERROR", true⟩
    else if e.response = none then
      ⟨ERROR_MESSAGES.NETWORK_ERROR, "NETWORK_ERROR", true⟩
    else
      ⟨"Token refresh failed: " ++ e.message, "UNKNOWN_ERROR", true⟩
  else
    ⟨"Token refresh failed: " ++ e.message, "UNKNOWN_ERROR", true⟩

/-- Cooldown test of `refreshAccessToken` (lines 174–175):
`tokenData.lastRefreshAttempt && (now - tokenData.lastRefreshAttempt) < retryDelay`.
JavaScript truthiness means a `lastRefreshAttempt` equal to `0` fails the
first conjunct, and the subtraction is over JS numbers, so it is computed
in `Int`. -/
def inCooldown (cfg : TokenRefreshConfig) (td : TokenData) (now : Nat) : Bool :=
  match td.lastRefreshAttempt with
  | some t => decide (t ≠ 0) && decide ((now : Int) - (t : Int) < (cfg.retryDelay : Int))
  | none => false

deriving instance DecidableEq for Except

/-- Result of one `refreshAccessToken` call: the returned string or thrown
error, the global `tokenData` after the call, whether the HTTP POST to the
provider was issued, and what `saveTokenData` wrote to the store (if it
ran). -/
structure RefreshResult where
  outcome : Except AppError String
  tokenData : Option TokenData
  httpIssued : Bool
  savedToStore : Option TokenData
deriving DecidableEq, Repr

/-- Shallow embedding of `refreshAccessToken` (`auth.ts` lines 164–267).
`now` is `Date.now()` at the cooldown check (line 173), `now2` is
`Date.now()` at expiry computation after the provider answered (line 218),
and `provider` is the outcome of the HTTP POST, consumed only if control
reaches it.  Note the in-place mutation of the attempt counters
(lines 184–185) happens before the max-retries check and before the HTTP
request, so those fields are updated in the resulting global state even on
failure. -/
def refreshAccessToken (cfg : TokenRefreshConfig) (tokenData : Option TokenData)
    (now now2 : Nat) (provider : ProviderResult) : RefreshResult :=
  match tokenData with
  | none =>
    ⟨.error (.mcp NO_REFRESH_TOKEN_MESSAGE), none, false, none⟩
  | some td =>
    if td.refreshToken = "" then
      ⟨.error (.mcp NO_REFRESH_TOKEN_MESSAGE), some td, false, none⟩
    else if inCooldown cfg td now then
      ⟨.error (.refresh ⟨COOLDOWN_MESSAGE, "RATE_LIMIT", true⟩), some td, false, none⟩
    else
      let td1 : TokenData :=
        { td with lastRefreshAttempt := some now
                  refreshAttempts := some (td.refreshAttempts.getD 0 + 1) }
      if cfg.maxRetries < td.refreshAttempts.getD 0 + 1 then
        ⟨.error (.refresh ⟨ERROR_MESSAGES.REFRESH_FAILED, "MAX_RETRIES_EXCEEDED", false⟩),
          some td1, false, none⟩
      else
        match provider with
        | .success tok expIn =>
          let newTokenData : TokenData :=
            { td1 with accessToken := tok
                       expiresAt := now2 + expIn * 1000
                       refreshAttempts := some 0
                       lastRefreshAttempt := none }
          ⟨.ok newTokenData.accessToken, some newTokenData, true, some newTokenData⟩
        | .failure e =>
          ⟨.error (.refresh (classifyRefreshFailure e)), some td1, true, none⟩

/-- Result of one `getValidAccessToken` call: the returned string or
thrown error, the global `tokenData` afterwards, the number of
`refreshAccessToken` invocations, the number of HTTP requests actually
issued to the provider, the number of `retryDelay` sleeps executed
(line 297–299), and the last token state written to the store, if any. -/
structure GvatResult where
  outcome : Except AppError String
  tokenData : Option TokenData
  refreshCalls : Nat
  httpCount : Nat
  sleeps : Nat
  savedToStore : Option TokenData
deriving DecidableEq, Repr

/-- One environment step for the retry loop of `getValidAccessToken`: the
two `Date.now()` readings inside the `refreshAccessToken` call of this
iteration and the provider outcome should the HTTP request be issued. -/
def RefreshEnv : Type := Nat × Nat × ProviderResult

/-- The `while (retryCount < maxRetries)` retry loop of
`getValidAccessToken` (`auth.ts` lines 283–309 plus the fallthrough throw
at lines 311–314), embedded with explicit state.  `env i` supplies the
environment of the iteration entered with `retryCount = i` (the loop
increments `retryCount` exactly once per failed iteration and returns on
success, so iterations are indexed by their entry `retryCount`).  `fuel`
is a structural-recursion bound only: every call from `getValidAccessToken`
passes `fuel = cfg.maxRetries`, and since each iteration consumes one unit
of fuel while `retryCount` grows by one, the condition
`retryCount < cfg.maxRetries` always fails no later than the fuel, so the
out-of-fuel branch is unreachable from `getValidAccessToken`.  When a
caught error is a retryable `TokenRefreshError` and there is retry budget
left the loop sleeps `retryDelay` and continues; a retryable failure with
no budget left, or any non-`TokenRefreshError`, is rethrown as an
`McpError` with the `Token refresh failed after N attempts` message; a
non-retryable `TokenRefreshError` is rethrown as an `McpError` with its
own message (lines 289–294). -/
def gvatLoop (cfg : TokenRefreshConfig) (env : Nat → RefreshEnv) :
    Nat → Nat → Option TokenData → Nat → Nat → Nat → Option TokenData → GvatResult
  | 0, retryCount, td, calls, https, sleeps, saved =>
    if retryCount < cfg.maxRetries then
      ⟨.error (.mcp "out of fuel"), td, calls, https, sleeps, saved⟩
    else
      ⟨.error (.mcp ERROR_MESSAGES.REFRESH_FAILED), td, calls, https, sleeps, saved⟩
  | fuel + 1, retryCount, td, calls, https, sleeps, saved =>
    if retryCount < cfg.maxRetries then
      let e := env retryCount
      let r := refreshAccessToken cfg td e.1 e.2.1 e.2.2
      let calls1 := calls + 1
      let https1 := https + (if r.httpIssued then 1 else 0)
      let saved1 := match r.savedToStore with
        | some x => some x
        | none => saved
      match r.outcome with
      | .ok tok => ⟨.ok tok, r.tokenData, calls1, https1, sleeps, saved1⟩
      | .error (.refresh tre) =>
        if tre.retryable then
          if retryCount + 1 < cfg.maxRetries then
            gvatLoop cfg env fuel (retryCount + 1) r.tokenData calls1 https1 (sleeps + 1) saved1
          else
            ⟨.error (.mcp ("Token refresh failed after " ++ toString (retryCount + 1) ++
                " attempts: " ++ tre.message)),
              r.tokenData, calls1, https1, sleeps, saved1⟩
        else
          ⟨.error (.mcp tre.message), r.tokenData, calls1, https1, sleeps, saved1⟩
      | .error (.mcp m) =>
        ⟨.error (.mcp ("Token refresh failed after " ++ toString retryCount ++
            " attempts: " ++ m)),
          r.tokenData, calls1, https1, sleeps, saved1⟩
    else
      ⟨.error (.mcp ERROR_MESSAGES.REFRESH_FAILED), td, calls, https, sleeps, saved⟩

/-- Shallow embedding of `getValidAccessToken` (`auth.ts` lines 269–318).
`now0` is `Date.now()` at the expiry check (line 280); the comparison is
over JS numbers, hence in `Int`.  A fresh token is returned as is with no
refresh call, no HTTP request, no sleep and no store write; a stale one
enters the retry loop. -/
def getValidAccessToken (cfg : TokenRefreshConfig) (tokenData : Option TokenData)
    (now0 : Nat) (env : Nat → RefreshEnv) : GvatResult :=
  match tokenData with
  | none => ⟨.error (.mcp NO_TOKEN_DATA_MESSAGE), none, 0, 0, 0, none⟩
  | some td =>
    let refreshThreshold : Nat := cfg.thresholdMinutes * 60 * 1000
    if (now0 : Int) ≥ (td.expiresAt : Int) - (refreshThreshold : Int) then
      gvatLoop cfg env cfg.maxRetries 0 (some td) 0 0 0 none
    else
      ⟨.ok td.accessToken, some td, 0, 0, 0, none⟩

/-!
Encrypted token store (`loadTokenData` / `saveTokenData`, `auth.ts`
lines 71–99).  The control flow of both functions is in `auth.ts`, but the
encryption helpers `encryptData` / `decryptData` they call live in
`security-utils.ts`, which is not among the sources.  Those helpers are
modelled from the spec (section 4.2): an authenticated symmetric scheme
keyed by an operator-provided secret whose decryption succeeds exactly on
an intact blob produced under the same key, and a lossless serialization
of the token state.
-/

/-- Modelled from the spec: the `EncryptedTokenData` blob produced by
`encryptData` of `security-utils.ts` (not among the sources).  The spec
describes an authenticated symmetric scheme keyed by an operator secret
with a nonce/tag/ciphertext layout that is an internal contract; we model
the blob abstractly as recording the key it was produced under, the
losslessly serialized payload, and an integrity bit (`intact = false`
models a tampered or corrupted blob whose authentication check fails). -/
structure EncryptedTokenData where
  keyId : String
  payload : TokenData
  intact : Bool
deriving DecidableEq, Repr

/-- Modelled from the spec: `encryptData` of `security-utils.ts` —
serializes and encrypts the token state under the operator key. -/
def encryptData (key : String) (data : TokenData) : EncryptedTokenData :=
  ⟨key, data, true⟩

/-- Modelled from the spec: `decryptData` of `security-utils.ts` —
authenticated decryption, which fails (throws) unless the blob is intact
and was produced under the same key. -/
def decryptData (key : String) (e : EncryptedTokenData) : Except String TokenData :=
  if e.intact ∧ e.keyId = key then .ok e.payload
  else .error "Decryption failed: invalid key or corrupted data"

/-- Contents of the token file at `TOKEN_STORE_PATH` when it exists:
either well-formed JSON holding an encrypted blob, or text that
`JSON.parse` rejects. -/
inductive TokenFileContent where
  | wellFormedJson (e : EncryptedTokenData)
  | malformedJson
deriving DecidableEq, Repr

/-- Message of the `McpError` thrown by `loadTokenData` (lines 79–82). -/
def LOAD_ERROR_MESSAGE : String :=
  "Failed to load token data. The token file may be corrupted or encryption key may be invalid."

/-- Shallow embedding of `loadTokenData` (`auth.ts` lines 71–85).  The
file system is passed as `Option TokenFileContent` (`none` = the file does
not exist).  An absent file returns `null`; a present file is parsed and
decrypted, and any failure in that is caught and rethrown as a fatal
`McpError` — never turned into `null`. -/
def loadTokenData (key : String) (file : Option TokenFileContent) :
    Except String (Option TokenData) :=
  match file with
  | none => .ok none
  | some .malformedJson => .error LOAD_ERROR_MESSAGE
  | some (.wellFormedJson e) =>
    match decryptData key e with
    | .ok d => .ok (some d)
    | .error _ => .error LOAD_ERROR_MESSAGE

/-- Result of `saveTokenData`: the file written and the global `tokenData`
after the assignment on line 91. -/
structure SaveResult where
  file : TokenFileContent
  tokenData : Option TokenData
deriving DecidableEq, Repr

/-- Shallow embedding of `saveTokenData` (`auth.ts` lines 87–99): encrypts
the state under the operator key, writes the JSON-encoded blob to the
token file, and updates the global `tokenData`.  (The catch branch for a
failing write is not modelled; the round-trip and corruption claims only
concern a completed save.) -/
def saveTokenData (key : String) (data : TokenData) : SaveResult :=
  ⟨.wellFormedJson (encryptData key data), some data⟩

/-- C1: For every failed provider response to `refresh()`, the thrown
error is classified exactly as: HTTP status 401 with body error field
`invalid_grant` yields non-retryable `INVALID_GRANT`; HTTP status 429
yields retryable `RATE_LIMIT`; HTTP status ≥ 500 yields retryable
`SERVER_ERROR`; an axios error with no HTTP response at all (network
failure or timeout) yields retryable `NETWORK_ERROR`; any other error
yields retryable `UNKNOWN_ERROR`. -/
theorem classifyRefreshFailure_cases (e : AxiosFailure) :
    (e.isAxios = true ∧ e.response = some (401, some "invalid_grant") →
      (classifyRefreshFailure e).code = "INVALID_GRANT" ∧
      (classifyRefreshFailure e).retryable = false) ∧
    (∀ b, e.isAxios = true ∧ e.response = some (429, b) →
      (classifyRefreshFailure e).code = "RATE_LIMIT" ∧
      (classifyRefreshFailure e).retryable = true) ∧
    (∀ s b, e.isAxios = true ∧ e.response = some (s, b) ∧ 500 ≤ s →
      (classifyRefreshFailure e).code = "SERVER_ERROR" ∧
      (classifyRefreshFailure e).retryable = true) ∧
    (e.isAxios = true ∧ e.response = none →
      (classifyRefreshFailure e).code = "NETWORK_ERROR" ∧
      (classifyRefreshFailure e).retryable = true) ∧
    (e.isAxios = false ∨
        (∃ s b, e.response = some (s, b) ∧ ¬(s = 401 ∧ b = some "invalid_grant") ∧
          s ≠ 429 ∧ s < 500) →
      (classifyRefreshFailure e).code = "UNKNOWN_ERROR" ∧
      (classifyRefreshFailure e).retryable = true) := by
  obtain ⟨ax, resp, msg⟩ := e
  refine ⟨?_, ?_, ?_, ?_, ?_⟩
  · rintro ⟨hax, hresp⟩
    subst hax; subst hresp
    simp [classifyRefreshFailure]
  · rintro b ⟨hax, hresp⟩
    subst hax; subst hresp
    simp [classifyRefreshFailure]
  · rintro s b ⟨hax, hresp, hs⟩
    subst hax; subst hresp
    have h401 : s ≠ 401 := by omega
    have h429 : s ≠ 429 := by omega
    simp [classifyRefreshFailure, h401, h429, hs]
  · rintro ⟨hax, hresp⟩
    subst hax; subst hresp
    simp [classifyRefreshFailure]
  · rintro (hax | ⟨s, b, hresp, hig, h429, hlt⟩)
    · subst hax; simp [classifyRefreshFailure]
    · subst hresp
      rcases ax with _ | _
      · simp [classifyRefreshFailure]
      · simp [classifyRefreshFailure, h429, Nat.not_le.mpr hlt, hig]

/-- Witness for `classifyRefreshFailure_cases` at a concrete 401
`invalid_grant` failure. -/
theorem classifyRefreshFailure_cases_witness :
    (classifyRefreshFailure ⟨true, some (401, some "invalid_grant"), "m"⟩).code =
      "INVALID_GRANT" ∧
    (classifyRefreshFailure ⟨true, some (401, some "invalid_grant"), "m"⟩).retryable =
      false :=
  (classifyRefreshFailure_cases ⟨true, some (401, some "invalid_grant"), "m"⟩).1
    ⟨rfl, rfl⟩

/-- C2: for every token state whose `expiresAt` minus the configured
refresh threshold is strictly greater than the current time,
`getValidAccessToken` returns the stored access token, performs no
refresh call, issues no HTTP request, sleeps never, writes nothing to the
store, and leaves the token state unchanged. -/
theorem getValidAccessToken_fresh (cfg : TokenRefreshConfig) (td : TokenData)
    (now0 : Nat) (env : Nat → RefreshEnv)
    (h : (now0 : Int) < (td.expiresAt : Int) - ((cfg.thresholdMinutes * 60 * 1000 : Nat) : Int)) :
    getValidAccessToken cfg (some td) now0 env =
      ⟨.ok td.accessToken, some td, 0, 0, 0, none⟩ := by
  simp only [getValidAccessToken]
  rw [if_neg (by push_cast at h ⊢; omega)]

/-- Witness for `getValidAccessToken_fresh` at a concrete fresh state. -/
theorem getValidAccessToken_fresh_witness :
    getValidAccessToken ⟨0, 0, 1⟩ (some ⟨"tok", "r", 1000000, [], none, none, none⟩) 0
        (fun _ => (0, 0, ProviderResult.failure ⟨false, none, "x"⟩)) =
      ⟨.ok "tok", some ⟨"tok", "r", 1000000, [], none, none, none⟩, 0, 0, 0, none⟩ :=
  getValidAccessToken_fresh ⟨0, 0, 1⟩ ⟨"tok", "r", 1000000, [], none, none, none⟩ 0
    (fun _ => (0, 0, ProviderResult.failure ⟨false, none, "x"⟩)) (by norm_num)

/-- Counterexample to C3 as stated: a token state whose
`lastRefreshAttempt` is set (to timestamp 0) and lies strictly within the
retry-delay window before the current time (`now = 50`, `50 - 0 = 50 <
100 = retryDelay`), yet `refreshAccessToken` does not fail with a
`RATE_LIMIT` error and does issue the HTTP request — because the
JavaScript truthiness test `if (tokenData.lastRefreshAttempt && ...)` on
line 174 of `auth.ts` treats the timestamp `0` as unset and skips the
cooldown check. -/
theorem refresh_cooldown_cex :
    (refreshAccessToken ⟨100, 3, 5⟩
        (some ⟨"a", "r", 1000, [], some 0, some 0, none⟩) 50 50
        (.success "newTok" 3600)).httpIssued = true ∧
    (refreshAccessToken ⟨100, 3, 5⟩
        (some ⟨"a", "r", 1000, [], some 0, some 0, none⟩) 50 50
        (.success "newTok" 3600)).outcome = .ok "newTok" := by
  exact ⟨rfl, rfl⟩

/-- C3 (amended): for every token state that has a refresh token and
whose `lastRefreshAttempt` is set to a nonzero timestamp lying strictly
within the configured retry-delay window before the current time,
`refreshAccessToken` fails immediately with the retryable `RATE_LIMIT`
cooldown error, issues no HTTP request, and changes nothing. -/
theorem refresh_cooldown_rateLimit (cfg : TokenRefreshConfig) (td : TokenData)
    (now now2 t : Nat) (pb : ProviderResult)
    (hrt : td.refreshToken ≠ "")
    (hl : td.lastRefreshAttempt = some t) (ht : t ≠ 0) (hle : t ≤ now)
    (hwin : now - t < cfg.retryDelay) :
    refreshAccessToken cfg (some td) now now2 pb =
      ⟨.error (.refresh ⟨COOLDOWN_MESSAGE, "RATE_LIMIT", true⟩), some td, false, none⟩ := by
  have hcd : inCooldown cfg td now = true := by
    simp [inCooldown, hl, ht]
    omega
  simp [refreshAccessToken, hrt, hcd]

/-- Witness for `refresh_cooldown_rateLimit` at a concrete state inside
the cooldown window. -/
theorem refresh_cooldown_rateLimit_witness :
    refreshAccessToken ⟨100, 3, 5⟩ (some ⟨"a", "r", 1000, [], some 10, some 1, none⟩)
        50 50 (.success "n" 3600) =
      ⟨.error (.refresh ⟨COOLDOWN_MESSAGE, "RATE_LIMIT", true⟩),
        some ⟨"a", "r", 1000, [], some 10, some 1, none⟩, false, none⟩ :=
  refresh_cooldown_rateLimit ⟨100, 3, 5⟩ ⟨"a", "r", 1000, [], some 10, some 1, none⟩
    50 50 10 (.success "n" 3600) (by decide) rfl (by decide) (by decide) (by decide)

/-- C4: for every token state with a refresh token that is outside the
cooldown window, when the incremented attempt counter exceeds the
configured maximum, `refreshAccessToken` fails with the non-retryable
`MAX_RETRIES_EXCEEDED` error without issuing any HTTP request, and the
resulting global state shows the counter was incremented (and the attempt
timestamp set) before the provider would have been contacted. -/
theorem refresh_max_retries (cfg : TokenRefreshConfig) (td : TokenData)
    (now now2 : Nat) (pb : ProviderResult)
    (hrt : td.refreshToken ≠ "")
    (hcd : inCooldown cfg td now = false)
    (hmax : cfg.maxRetries < td.refreshAttempts.getD 0 + 1) :
    refreshAccessToken cfg (some td) now now2 pb =
      ⟨.error (.refresh ⟨ERROR_MESSAGES.REFRESH_FAILED, "MAX_RETRIES_EXCEEDED", false⟩),
        some { td with lastRefreshAttempt := some now
                       refreshAttempts := some (td.refreshAttempts.getD 0 + 1) },
        false, none⟩ := by
  simp [refreshAccessToken, hrt, hcd, hmax]

/-- Witness for `refresh_max_retries` at a concrete exhausted state. -/
theorem refresh_max_retries_witness :
    refreshAccessToken ⟨100, 3, 5⟩ (some ⟨"a", "r", 1000, [], none, some 3, none⟩)
        50 50 (.success "n" 3600) =
      ⟨.error (.refresh ⟨ERROR_MESSAGES.REFRESH_FAILED, "MAX_RETRIES_EXCEEDED", false⟩),
        some ⟨"a", "r", 1000, [], some 50, some 4, none⟩, false, none⟩ :=
  refresh_max_retries ⟨100, 3, 5⟩ ⟨"a", "r", 1000, [], none, some 3, none⟩
    50 50 (.success "n" 3600) (by decide) rfl (by decide)

/-- C5: every successful `refreshAccessToken` call succeeds on a provider
success body, and the resulting token state — which is both the new global
state and exactly what was written to the store before returning — carries
the provider access token, expiry `now2 + expires_in * 1000` (with `now2`
the `Date.now()` reading of line 218), `refreshAttempts = 0`, and a
cleared `lastRefreshAttempt`, all other fields unchanged. -/
theorem refresh_success_resets (cfg : TokenRefreshConfig) (tokenData : Option TokenData)
    (now now2 : Nat) (pb : ProviderResult) (tok : String)
    (h : (refreshAccessToken cfg tokenData now now2 pb).outcome = .ok tok) :
    ∃ td expIn,
      tokenData = some td ∧
      pb = .success tok expIn ∧
      (refreshAccessToken cfg tokenData now now2 pb).tokenData =
        some { td with accessToken := tok
                       expiresAt := now2 + expIn * 1000
                       refreshAttempts := some 0
                       lastRefreshAttempt := none } ∧
      (refreshAccessToken cfg tokenData now now2 pb).savedToStore =
        some { td with accessToken := tok
                       expiresAt := now2 + expIn * 1000
                       refreshAttempts := some 0
                       lastRefreshAttempt := none } := by
  cases tokenData with
  | none => simp [refreshAccessToken] at h
  | some td =>
    by_cases h1 : td.refreshToken = ""
    · simp [refreshAccessToken, h1] at h
    · by_cases h2 : inCooldown cfg td now
      · simp [refreshAccessToken, h1, h2] at h
      · by_cases h3 : cfg.maxRetries < td.refreshAttempts.getD 0 + 1
        · simp [refreshAccessToken, h1, h2, h3] at h
        · cases pb with
          | failure e => simp [refreshAccessToken, h1, h2, h3] at h
          | success tok0 expIn =>
            have htok : tok0 = tok := by
              simpa [refreshAccessToken, h1, h2, h3] using h
            subst htok
            exact ⟨td, expIn, rfl, rfl,
              by simp [refreshAccessToken, h1, h2, h3],
              by simp [refreshAccessToken, h1, h2, h3]⟩

/-- Witness for `refresh_success_resets` at a concrete successful
refresh. -/
theorem refresh_success_resets_witness :
    ∃ td expIn,
      (some (⟨"a", "r", 1000, [], none, none, none⟩ : TokenData)) = some td ∧
      ProviderResult.success "n" 2 = .success "n" expIn ∧
      (refreshAccessToken ⟨100, 3, 5⟩ (some ⟨"a", "r", 1000, [], none, none, none⟩)
          50 60 (.success "n" 2)).tokenData =
        some { td with accessToken := "n"
                       expiresAt := 60 + expIn * 1000
                       refreshAttempts := some 0
                       lastRefreshAttempt := none } ∧
      (refreshAccessToken ⟨100, 3, 5⟩ (some ⟨"a", "r", 1000, [], none, none, none⟩)
          50 60 (.success "n" 2)).savedToStore =
        some { td with accessToken := "n"
                       expiresAt := 60 + expIn * 1000
                       refreshAttempts := some 0
                       lastRefreshAttempt := none } :=
  refresh_success_resets ⟨100, 3, 5⟩ (some ⟨"a", "r", 1000, [], none, none, none⟩)
    50 60 (.success "n" 2) "n" rfl

/-- Every classified provider failure differs from the cooldown error:
its message is never `COOLDOWN_MESSAGE` (the literal messages differ and
the generic one is prefixed by `Token refresh failed: `, but the codes
already separate all cases except 429, whose message differs). -/
theorem classifyRefreshFailure_ne_cooldown (e : AxiosFailure) :
    classifyRefreshFailure e ≠ ⟨COOLDOWN_MESSAGE, "RATE_LIMIT", true⟩ := by
  intro h
  simp only [classifyRefreshFailure] at h
  split_ifs at h
  · exact absurd (congrArg TokenRefreshError.code h)
      (show ¬("INVALID_GRANT" = "RATE_LIMIT") from by decide)
  · exact absurd (congrArg TokenRefreshError.message h)
      (show ¬(ERROR_MESSAGES.RATE_LIMIT = COOLDOWN_MESSAGE) from by decide)
  · exact absurd (congrArg TokenRefreshError.code h)
      (show ¬("SERVER_ERROR" = "RATE_LIMIT") from by decide)
  · exact absurd (congrArg TokenRefreshError.code h)
      (show ¬("NETWORK_ERROR" = "RATE_LIMIT") from by decide)
  · exact absurd (congrArg TokenRefreshError.code h)
      (show ¬("UNKNOWN_ERROR" = "RATE_LIMIT") from by decide)
  · exact absurd (congrArg TokenRefreshError.code h)
      (show ¬("UNKNOWN_ERROR" = "RATE_LIMIT") from by decide)

/-- C10: whenever `refreshAccessToken` fails with the cooldown
`RATE_LIMIT` error (a prior attempt within the retry-delay window), the
global token state is left completely unchanged — `refreshAttempts` is not
incremented and `lastRefreshAttempt` keeps its previous value — nothing is
written to the store, and no HTTP request is issued, because the throw on
lines 176–180 precedes the counter updates on lines 184–185. -/
theorem refresh_cooldown_frame (cfg : TokenRefreshConfig) (td : TokenData)
    (now now2 : Nat) (pb : ProviderResult)
    (h : (refreshAccessToken cfg (some td) now now2 pb).outcome =
      .error (.refresh ⟨COOLDOWN_MESSAGE, "RATE_LIMIT", true⟩)) :
    (refreshAccessToken cfg (some td) now now2 pb).tokenData = some td ∧
    (refreshAccessToken cfg (some td) now now2 pb).savedToStore = none ∧
    (refreshAccessToken cfg (some td) now now2 pb).httpIssued = false := by
  by_cases h1 : td.refreshToken = ""
  · simp [refreshAccessToken, h1] at h
  · by_cases h2 : inCooldown cfg td now
    · refine ⟨?_, ?_, ?_⟩ <;> simp [refreshAccessToken, h1, h2]
    · by_cases h3 : cfg.maxRetries < td.refreshAttempts.getD 0 + 1
      · simp [refreshAccessToken, h1, h2, h3] at h
      · cases pb with
        | success tok expIn => simp [refreshAccessToken, h1, h2, h3] at h
        | failure e =>
          have hcl : classifyRefreshFailure e = ⟨COOLDOWN_MESSAGE, "RATE_LIMIT", true⟩ := by
            simpa [refreshAccessToken, h1, h2, h3] using h
          exact absurd hcl (classifyRefreshFailure_ne_cooldown e)

/-- Witness for `refresh_cooldown_frame` at a concrete state inside the
cooldown window. -/
theorem refresh_cooldown_frame_witness :
    (refreshAccessToken ⟨100, 3, 5⟩ (some ⟨"a", "r", 1000, [], some 10, some 1, none⟩)
        50 50 (.success "n" 3600)).tokenData =
      some ⟨"a", "r", 1000, [], some 10, some 1, none⟩ ∧
    (refreshAccessToken ⟨100, 3, 5⟩ (some ⟨"a", "r", 1000, [], some 10, some 1, none⟩)
        50 50 (.success "n" 3600)).savedToStore = none ∧
    (refreshAccessToken ⟨100, 3, 5⟩ (some ⟨"a", "r", 1000, [], some 10, some 1, none⟩)
        50 50 (.success "n" 3600)).httpIssued = false :=
  refresh_cooldown_frame ⟨100, 3, 5⟩ ⟨"a", "r", 1000, [], some 10, some 1, none⟩
    50 50 (.success "n" 3600) (by decide)

/-- C8: `loadTokenData` returns `null` when the token file is absent, and
when the file exists but cannot be parsed or decrypted it raises the fatal
load error — it never returns `null` in that case, so corruption is never
reported as a benign cold start. -/
theorem loadTokenData_absent_null_corrupt_fatal (key : String) (file : TokenFileContent) :
    loadTokenData key none = .ok none ∧
    ((file = .malformedJson ∨
        ∃ e, file = .wellFormedJson e ∧ ¬(e.intact ∧ e.keyId = key)) →
      loadTokenData key (some file) = .error LOAD_ERROR_MESSAGE) := by
  refine ⟨rfl, ?_⟩
  rintro (hm | ⟨e, hw, hbad⟩)
  · subst hm; rfl
  · subst hw
    simp [loadTokenData, decryptData, hbad]

/-- Witness for `loadTokenData_absent_null_corrupt_fatal` at a malformed
file. -/
theorem loadTokenData_absent_null_corrupt_fatal_witness :
    loadTokenData "k" none = .ok none ∧
    loadTokenData "k" (some .malformedJson) = .error LOAD_ERROR_MESSAGE :=
  ⟨(loadTokenData_absent_null_corrupt_fatal "k" .malformedJson).1,
    (loadTokenData_absent_null_corrupt_fatal "k" .malformedJson).2 (Or.inl rfl)⟩

/-- C9: for every token state, saving it with `saveTokenData` and loading
the written file back with `loadTokenData` under the same key yields a
token state equal to the original in every field (`accessToken`,
`refreshToken`, `expiresAt`, `scope`, `lastRefreshAttempt`,
`refreshAttempts`, `codeVerifier`). -/
theorem saveTokenData_loadTokenData_roundtrip (key : String) (data : TokenData) :
    loadTokenData key (some (saveTokenData key data).file) = .ok (some data) := by
  simp [loadTokenData, saveTokenData, encryptData, decryptData]

/-- C7: with a stale token and at least one retry allowed, each of the
three non-retryable failures of `refreshAccessToken` — the
missing-refresh-token precondition `McpError`, `MAX_RETRIES_EXCEEDED`, and
`INVALID_GRANT` from an HTTP 401 `invalid_grant` response — makes
`getValidAccessToken` surface the error immediately: exactly one refresh
invocation, no retry-delay sleep, and no further HTTP request beyond the
at most one the failing refresh itself issued. -/
theorem getValidAccessToken_nonretryable_immediate (cfg : TokenRefreshConfig)
    (td : TokenData) (now0 n0 n2 : Nat) (pb : ProviderResult) (env : Nat → RefreshEnv)
    (he : env 0 = (n0, n2, pb))
    (hstale : (td.expiresAt : Int) - ((cfg.thresholdMinutes * 60 * 1000 : Nat) : Int) ≤ (now0 : Int))
    (hmr : 1 ≤ cfg.maxRetries) :
    (td.refreshToken = "" →
      getValidAccessToken cfg (some td) now0 env =
        ⟨.error (.mcp ("Token refresh failed after " ++ toString 0 ++ " attempts: " ++
            NO_REFRESH_TOKEN_MESSAGE)),
          some td, 1, 0, 0, none⟩) ∧
    (td.refreshToken ≠ "" → inCooldown cfg td n0 = false →
      cfg.maxRetries < td.refreshAttempts.getD 0 + 1 →
      getValidAccessToken cfg (some td) now0 env =
        ⟨.error (.mcp ERROR_MESSAGES.REFRESH_FAILED),
          some { td with lastRefreshAttempt := some n0
                         refreshAttempts := some (td.refreshAttempts.getD 0 + 1) },
          1, 0, 0, none⟩) ∧
    (∀ m, td.refreshToken ≠ "" → inCooldown cfg td n0 = false →
      td.refreshAttempts.getD 0 + 1 ≤ cfg.maxRetries →
      pb = .failure ⟨true, some (401, some "invalid_grant"), m⟩ →
      getValidAccessToken cfg (some td) now0 env =
        ⟨.error (.mcp ERROR_MESSAGES.INVALID_GRANT),
          some { td with lastRefreshAttempt := some n0
                         refreshAttempts := some (td.refreshAttempts.getD 0 + 1) },
          1, 1, 0, none⟩) := by
  obtain ⟨rd, mr, th⟩ := cfg
  have hmr2 : 1 ≤ mr := hmr
  obtain ⟨mr', rfl⟩ : ∃ k, mr = k + 1 := ⟨mr - 1, by omega⟩
  have hcond : ((now0 : Int) ≥ (td.expiresAt : Int) - ((th * 60 * 1000 : Nat) : Int)) := by
    simpa using hstale
  refine ⟨?_, ?_, ?_⟩
  · intro h1
    simp only [getValidAccessToken]
    rw [if_pos hcond]
    simp [gvatLoop, he, refreshAccessToken, h1]
  · intro h1 h2 h3
    simp only [getValidAccessToken]
    rw [if_pos hcond]
    simp [gvatLoop, he, refreshAccessToken, h1, h2, h3]
  · intro m h1 h2 h3 hpb
    subst hpb
    simp only [getValidAccessToken]
    rw [if_pos hcond]
    have h3'' : td.refreshAttempts.getD 0 + 1 ≤ mr' + 1 := h3
    have h3' : ¬(mr' + 1 < td.refreshAttempts.getD 0 + 1) := by omega
    simp [gvatLoop, he, refreshAccessToken, h1, h2, h3', classifyRefreshFailure]

/-- Witness for `getValidAccessToken_nonretryable_immediate` at a concrete
HTTP 401 `invalid_grant` provider response. -/
theorem getValidAccessToken_nonretryable_immediate_witness :
    getValidAccessToken ⟨100, 3, 5⟩ (some ⟨"a", "r", 1000, [], none, none, none⟩) 1000000
        (fun _ => (5, 6, .failure ⟨true, some (401, some "invalid_grant"), "m"⟩)) =
      ⟨.error (.mcp ERROR_MESSAGES.INVALID_GRANT),
        some ⟨"a", "r", 1000, [], some 5, some 1, none⟩, 1, 1, 0, none⟩ :=
  (getValidAccessToken_nonretryable_immediate ⟨100, 3, 5⟩
      ⟨"a", "r", 1000, [], none, none, none⟩ 1000000 5 6
      (.failure ⟨true, some (401, some "invalid_grant"), "m"⟩)
      (fun _ => (5, 6, .failure ⟨true, some (401, some "invalid_grant"), "m"⟩))
      rfl (by norm_num) (by norm_num)).2.2 "m" (by decide) rfl (by decide) rfl

/-- C6: with `maxRetries = 3`, a stale clean token state (refresh token
present, no prior attempt recorded), and a provider answering every
attempt with HTTP 503, `getValidAccessToken` invokes `refreshAccessToken`
three times, issues exactly 3 HTTP requests, sleeps the configured retry
delay between consecutive attempts (2 sleeps for 3 attempts; the time
hypotheses `t0 + retryDelay ≤ t1 ≤ ...` express that at least the slept
delay elapsed, which is what lets the cooldown check pass), and then fails
with the refresh-failure `McpError`. -/
theorem getValidAccessToken_503_three_retries (cfg : TokenRefreshConfig) (td : TokenData)
    (now0 : Nat) (env : Nat → RefreshEnv)
    (t0 t1 t2 s0 s1 s2 : Nat) (b0 b1 b2 : Option String) (m0 m1 m2 : String)
    (hmr : cfg.maxRetries = 3)
    (hstale : (td.expiresAt : Int) - ((cfg.thresholdMinutes * 60 * 1000 : Nat) : Int) ≤ (now0 : Int))
    (hrt : td.refreshToken ≠ "")
    (hla : td.lastRefreshAttempt = none)
    (hra : td.refreshAttempts = none)
    (he0 : env 0 = (t0, s0, .failure ⟨true, some (503, b0), m0⟩))
    (he1 : env 1 = (t1, s1, .failure ⟨true, some (503, b1), m1⟩))
    (he2 : env 2 = (t2, s2, .failure ⟨true, some (503, b2), m2⟩))
    (hgap1 : t0 + cfg.retryDelay ≤ t1)
    (hgap2 : t1 + cfg.retryDelay ≤ t2) :
    getValidAccessToken cfg (some td) now0 env =
      ⟨.error (.mcp ("Token refresh failed after " ++ toString 3 ++ " attempts: " ++
          ERROR_MESSAGES.SERVER_ERROR)),
        some { td with lastRefreshAttempt := some t2
                       refreshAttempts := some 3 },
        3, 3, 2, none⟩ := by
  have hcond : ((now0 : Int) ≥ (td.expiresAt : Int) - ((cfg.thresholdMinutes * 60 * 1000 : Nat) : Int)) := by
    simpa using hstale
  have hc1 : inCooldown cfg { td with lastRefreshAttempt := some t0
                                      refreshAttempts := some 1 } t1 = false := by
    simp [inCooldown]
    omega
  have hc2 : inCooldown cfg { td with lastRefreshAttempt := some t1
                                      refreshAttempts := some 2 } t2 = false := by
    simp [inCooldown]
    omega
  simp only [getValidAccessToken]
  rw [if_pos hcond, hmr]
  have hcd : inCooldown cfg td t0 = false := by simp [inCooldown, hla]
  simp [gvatLoop, hmr, he0, he1, he2, refreshAccessToken, hrt, hla, hra, hcd, hc1, hc2,
    classifyRefreshFailure]

/-- Witness for `getValidAccessToken_503_three_retries` at a concrete
stale state and a provider answering 503 three times. -/
theorem getValidAccessToken_503_three_retries_witness :
    getValidAccessToken ⟨100, 3, 5⟩ (some ⟨"a", "r", 1000, [], none, none, none⟩) 1000000
        (fun i => (i * 1000 + 7, 0, .failure ⟨true, some (503, none), "boom"⟩)) =
      ⟨.error (.mcp ("Token refresh failed after " ++ toString 3 ++ " attempts: " ++
          ERROR_MESSAGES.SERVER_ERROR)),
        some ⟨"a", "r", 1000, [], some 2007, some 3, none⟩, 3, 3, 2, none⟩ :=
  getValidAccessToken_503_three_retries ⟨100, 3, 5⟩ ⟨"a", "r", 1000, [], none, none, none⟩
    1000000 (fun i => (i * 1000 + 7, 0, .failure ⟨true, some (503, none), "boom"⟩))
    7 1007 2007 0 0 0 none none none "boom" "boom" "boom"
    rfl (by norm_num) (by decide) rfl rfl rfl rfl rfl (by decide) (by decide)
